import Mathlib

/-!
Verification development for the libsmi serial eye-tracker driver
(`libsmi.py`).  The Python class is shallowly embedded: each method that
the specification talks about becomes a Lean function over explicit
inputs.  The serial channel is modelled as a list of read results (a
character, a timed-out read, or the end-of-stream sentinel); loops that
block on the channel are modelled as structural recursion over that
list, with a dedicated `blocked` outcome meaning the loop is still
running when the supplied reads are exhausted.  Python exceptions are
modelled as explicit error outcomes.
-/

namespace LibSMI

/-- One result of `self.tracker.read(size=1)`: a real character, a read
that timed out inside the transport (pyserial returns the empty string,
so the accumulating loop is unchanged), or the `None` sentinel the code
compares against (end of stream / channel closed). -/
inductive ReadRes where
  | byte (c : Char)
  | timeout
  | closed
deriving DecidableEq

/-- Outcome of `recv`: a returned line (as its character list, the final
character already stripped), a raised `runtime_error` with its message,
or still looping after all supplied reads were consumed. -/
inductive RecvRes where
  | ok (line : List Char)
  | err (msg : String)
  | blocked (buffered : List Char)
deriving DecidableEq

/-- The byte-accumulation loop of `libsmi.recv`, with the accumulated
string `s` as an explicit parameter (Python: `s = ''` then
`while True: c = self.tracker.read(size=1); ...`).
`None` raises `runtime_error('The tracker said "%s"' % s)`; a linefeed
ends the line when more than one character is buffered and otherwise
discards the buffer and continues; any other character (a timed-out
read contributes the empty string, hence nothing) is appended.  On
success the code returns `s[:-1]`. -/
def recvAux : List Char → List ReadRes → RecvRes
  | s, [] => .blocked s
  | s, .closed :: _ => .err ("The tracker said \"" ++ String.mk s ++ "\"")
  | s, .timeout :: rest => recvAux s rest
  | s, .byte c :: rest =>
    if c = '\n' then
      if s.length > 1 then .ok s.dropLast
      else recvAux [] rest
    else recvAux (s ++ [c]) rest

/-- `libsmi.recv`: run the accumulation loop with an empty buffer. -/
def recv (rs : List ReadRes) : RecvRes := recvAux [] rs

theorem recvAux_ok_length (rs : List ReadRes) : ∀ (s r : List Char),
    recvAux s rs = RecvRes.ok r → 1 ≤ r.length := by
  induction rs with
  | nil => intro s r h; simp [recvAux] at h
  | cons a rest ih =>
    intro s r h
    cases a with
    | closed => simp [recvAux] at h
    | timeout => exact ih s r h
    | byte c =>
      by_cases hc : c = '\n'
      · subst hc
        by_cases hs : s.length > 1
        · simp [recvAux, hs] at h
          subst h
          simp [List.length_dropLast]
          omega
        · simp [recvAux, hs] at h
          exact ih [] r h
      · simp [recvAux, hc] at h
        exact ih _ r h

/-- Claim C4: `recv` never returns a line that had fewer than 2
accumulated characters before its terminating linefeed.  First conjunct:
a linefeed arriving while at most one character is buffered discards the
buffer and restarts accumulation empty.  Second conjunct: any line that
`recv` does return came from a buffer of length at least 2 before the
linefeed, so after the final-character strip it still has at least one
character. -/
theorem recv_discards_short_lines :
    (∀ (s : List Char) (rest : List ReadRes), s.length ≤ 1 →
        recvAux s (ReadRes.byte '\n' :: rest) = recvAux [] rest) ∧
    (∀ (rs : List ReadRes) (r : List Char),
        recv rs = RecvRes.ok r → 1 ≤ r.length) := by
  constructor
  · intro s rest hs
    have hns : ¬ s.length > 1 := by omega
    simp [recvAux, hns]
  · intro rs r h
    exact recvAux_ok_length rs [] r h

theorem recv_discards_short_lines_witness :
    recvAux ['x'] (ReadRes.byte '\n' :: [ReadRes.byte 'a']) =
        recvAux [] [ReadRes.byte 'a'] ∧
    1 ≤ (['a'] : List Char).length :=
  ⟨recv_discards_short_lines.1 ['x'] [ReadRes.byte 'a'] (by decide),
   recv_discards_short_lines.2
     [ReadRes.byte 'a', ReadRes.byte '\t', ReadRes.byte '\n'] ['a'] (by decide)⟩

/-- Claim C7: a read that returns the end-of-stream sentinel makes
`recv` raise a runtime error whose message carries the partial content
accumulated so far; it does not return normally (the outcome is the
error constructor, whatever reads would have followed). -/
theorem recv_closed_raises :
    ∀ (s : List Char) (rest : List ReadRes),
      recvAux s (ReadRes.closed :: rest) =
        RecvRes.err ("The tracker said \"" ++ String.mk s ++ "\"") := by
  intro s rest
  rfl

/-- Claim C8 (amended): a timed-out read leaves the accumulation loop
exactly where it was; after any number of consecutive timeouts `recv`
is still looping with the same buffer and has surfaced no error.  The
loop terminates only on a linefeed-completed line of length at least 2
or on the end-of-stream sentinel (which raises). -/
theorem recv_timeouts_loops :
    ∀ (n : Nat) (s : List Char),
      recvAux s (List.replicate n ReadRes.timeout) = RecvRes.blocked s := by
  intro n
  induction n with
  | zero => intro s; rfl
  | succ k ih =>
    intro s
    simpa [List.replicate_succ, recvAux] using ih s

/-- Claim C8, counterexample to the claim as stated: after 100
consecutive timed-out reads with no linefeed ever delivered, `recv` has
not surfaced any error — it is still looping with an empty buffer. -/
theorem recv_timeouts_counterexample :
    recv (List.replicate 100 ReadRes.timeout) = RecvRes.blocked [] := by
  decide

/-! ## Tokenizing and integer parsing

`s.split()` in Python (no argument) splits on runs of whitespace and
drops empty pieces; `int(tok)` parses an optional sign followed by a
nonempty digit string, or raises `ValueError`.  Both are modelled
below; a parse failure is `none`. -/

/-- Python `str.split()` over a character list: split on whitespace
runs, dropping empty pieces.  `acc` holds the current token reversed. -/
def splitWsAux : List Char → List Char → List (List Char)
  | [], acc => if acc = [] then [] else [acc.reverse]
  | c :: cs, acc =>
    if c.isWhitespace then
      if acc = [] then splitWsAux cs []
      else acc.reverse :: splitWsAux cs []
    else splitWsAux cs (c :: acc)

/-- Python `s.split()` on a string, producing the token list. -/
def pySplit (s : String) : List String :=
  (splitWsAux s.toList []).map String.mk

/-- Parse a nonempty all-digit character list as a natural number. -/
def pyDigits? (cs : List Char) : Option Nat :=
  if cs = [] then none
  else
    cs.foldl
      (fun acc c =>
        match acc with
        | none => none
        | some a => if c.isDigit then some (a * 10 + (c.toNat - 48)) else none)
      (some 0)

/-- Python `int(tok)` on a whitespace-free token: optional sign then
digits; `none` models the `ValueError` raised on anything else. -/
def pyInt? (s : String) : Option Int :=
  match s.toList with
  | '-' :: rest => (pyDigits? rest).map (fun n => -(n : Int))
  | '+' :: rest => (pyDigits? rest).map (fun n => (n : Int))
  | cs => (pyDigits? cs).map (fun n => (n : Int))

/-! ## The streaming sample decoder (`libsmi.sample`) -/

/-- One iteration body of the `while True` loop in `libsmi.sample`,
applied to the already-split token list `l` of one received line:
if the line is a sample frame (`l[0] == 'ET_SPL'`), try
`x = int(l[1])`, then `y = int(l[3])` when the frame has exactly 5
tokens (binocular) and `y = int(l[2])` otherwise (monocular).  Any
failure inside the `try` (missing token = `IndexError`, non-integer
token = `ValueError`) is swallowed by the bare `except`, and a
non-sample line is skipped, both yielding `none` (loop retries). -/
def sampleStep (l : List String) : Option (Int × Int) :=
  match l with
  | [] => none
  | tag :: _ =>
    if tag = "ET_SPL" then
      match (l.get? 1).bind pyInt? with
      | none => none
      | some x =>
        match ((if l.length = 5 then l.get? 3 else l.get? 2).bind pyInt?) with
        | none => none
        | some y => some (x, y)
    else none

/-- The `while True` loop of `libsmi.sample` over the lines `recv`
delivers: return the first successfully parsed pair; `none` means the
loop is still waiting when the supplied lines run out. -/
def sampleLoop : List String → Option (Int × Int)
  | [] => none
  | line :: rest =>
    match sampleStep (pySplit line) with
    | some p => some p
    | none => sampleLoop rest

/-- `libsmi.sample(clear)`: if `self.streaming` is false, raise the
runtime error immediately (no flush, no read); otherwise optionally
flush the input buffer (`clear=True` discards the frames already
buffered in the channel) and run the decode loop over what the channel
delivers. -/
def sample (streaming clear : Bool) (buffered live : List String) :
    Except String (Option (Int × Int)) :=
  if streaming then
    .ok (sampleLoop ((if clear then [] else buffered) ++ live))
  else
    .error "Please set stream=True in start_recording() before using sample()"

/-- Claim C2: a 5-token sample frame yields
`(int(token 1), int(token 3))`, the second eye's tokens 2 and 4 being
discarded (they are arbitrary strings `b`, `d` never parsed); a 3-token
sample frame yields `(int(token 1), int(token 2))`.  Both results are
the first eye's coordinates. -/
theorem sample_first_eye :
    (∀ (a b c d : String) (x y : Int),
        pyInt? a = some x → pyInt? c = some y →
        sampleStep ["ET_SPL", a, b, c, d] = some (x, y)) ∧
    (∀ (a b : String) (x y : Int),
        pyInt? a = some x → pyInt? b = some y →
        sampleStep ["ET_SPL", a, b] = some (x, y)) := by
  constructor
  · intro a b c d x y hx hy
    simp [sampleStep, hx, hy]
  · intro a b x y hx hy
    simp [sampleStep, hx, hy]

theorem sample_first_eye_witness :
    sampleStep ["ET_SPL", "10", "99", "20", "98"] = some (10, 20) ∧
    sampleStep ["ET_SPL", "10", "20"] = some (10, 20) :=
  ⟨sample_first_eye.1 "10" "99" "20" "98" 10 20 (by decide) (by decide),
   sample_first_eye.2 "10" "20" 10 20 (by decide) (by decide)⟩

/-- Claim C3: calling `sample` while the streaming flag is false raises
the not-streaming runtime error, for every value of `clear` and
whatever the channel holds — in particular before any flush or read
touches the channel, since the result does not depend on it. -/
theorem sample_not_streaming :
    ∀ (clear : Bool) (buffered live : List String),
      sample false clear buffered live =
        Except.error
          "Please set stream=True in start_recording() before using sample()" := by
  intro clear buffered live
  rfl

/-- Claim C9: a line whose parse fails (non-integer tokens, wrong
arity, or not a sample frame at all) never raises — the loop simply
retries on the next line; and concretely the frames
`ET_SPL x` then `ET_SPL 10 20` decode to `(10, 20)`. -/
theorem sample_skips_malformed :
    (∀ (line : String) (rest : List String),
        sampleStep (pySplit line) = none →
        sampleLoop (line :: rest) = sampleLoop rest) ∧
    sampleLoop ["ET_SPL x", "ET_SPL 10 20"] = some (10, 20) := by
  constructor
  · intro line rest h
    simp [sampleLoop, h]
  · decide

theorem sample_skips_malformed_witness :
    sampleLoop ["ET_SPL x", "ET_SPL 10 20"] = sampleLoop ["ET_SPL 10 20"] :=
  sample_skips_malformed.1 "ET_SPL x" ["ET_SPL 10 20"] (by decide)

/-- Claim C10: every sample frame with a token count other than 5 takes
the monocular branch — with parseable tokens at positions 1 and 2 it
yields `(int(token 1), int(token 2))`; concretely the 4-token frame
`ET_SPL 1 2 3` yields `(1, 2)`. -/
theorem sample_non5_monocular :
    (∀ (l : List String) (x y : Int),
        l.head? = some "ET_SPL" → l.length ≠ 5 →
        (l.get? 1).bind pyInt? = some x →
        (l.get? 2).bind pyInt? = some y →
        sampleStep l = some (x, y)) ∧
    sampleStep ["ET_SPL", "1", "2", "3"] = some (1, 2) := by
  constructor
  · intro l x y hhead hlen hx hy
    match l with
    | tag :: tl =>
      simp at hhead
      subst hhead
      have hlen4 : tl.length ≠ 4 := by
        simp [List.length_cons] at hlen
        omega
      have hx2 : tl[0]?.bind pyInt? = some x := by simpa using hx
      have hy2 : tl[1]?.bind pyInt? = some y := by simpa using hy
      simp [sampleStep, hlen4, hx2, hy2]
  · decide

theorem sample_non5_monocular_witness :
    sampleStep ["ET_SPL", "1", "2", "3"] = some (1, 2) :=
  sample_non5_monocular.1 ["ET_SPL", "1", "2", "3"] 1 2
    (by decide) (by decide) (by decide) (by decide)

/-! ## The calibration event loop (`libsmi.calibrate`)

The loop keeps a Python dict `pts` mapping `pt_nr - 1` (an `Int`: the
device-reported number is parsed with `int` and may be anything) to an
`(x, y)` pair.  The dict is modelled as an association list where the
most recent binding is found first, matching dict overwrite semantics.
Side effects on the display and the synthesizers are collected as an
event trace. -/

/-- A side effect performed inside the calibration loop:
`self.my_canvas.clear()`, `self.my_canvas.fixdot(x, y)`,
`self.my_canvas.show()`, `self.beep1.play()`. -/
inductive CalEvent where
  | clear
  | fixdot (x y : Int)
  | present
  | beep1
deriving DecidableEq

/-- An exception escaping the calibration loop: the explicit
`runtime_error` raise, or an uncaught Python `ValueError`/`IndexError`
from `int(...)` or an out-of-range token access (the loop has no
`try`). -/
inductive CalErr where
  | runtimeError (msg : String)
  | pyError
deriving DecidableEq

/-- Latest-binding-first lookup in the modelled dict. -/
def dictFind? (k : Int) : List (Int × Int × Int) → Option (Int × Int)
  | [] => none
  | (k2, v) :: rest => if k2 = k then some v else dictFind? k rest

/-- Result of one iteration of the calibration loop body. -/
inductive StepRes where
  | next (pts : List (Int × Int × Int)) (evs : List CalEvent)
  | finish
  | fail (e : CalErr) (evs : List CalEvent)
deriving DecidableEq

/-- One iteration body of the `while True` loop in `libsmi.calibrate`,
applied to the token list of one received line: empty lines are
ignored; `ET_PNT` stores `(int cmd[1] - 1) ↦ (int cmd[2], int cmd[3])`;
`ET_CHG` looks up `int cmd[1] - 1`, raises the calibration-went-wrong
runtime error when absent (before any display call), and otherwise
clears the canvas, draws the fixation dot at the stored coordinates,
shows it and, with sound enabled, plays beep1; `ET_FIN` breaks the
loop; any other tag is ignored. -/
def calibStep (sound : Bool) (pts : List (Int × Int × Int))
    (cmd : List String) : StepRes :=
  match cmd with
  | [] => .next pts []
  | tag :: _ =>
    if tag = "ET_PNT" then
      match (cmd.get? 1).bind pyInt?, (cmd.get? 2).bind pyInt?,
          (cmd.get? 3).bind pyInt? with
      | some n, some x, some y => .next ((n - 1, x, y) :: pts) []
      | _, _, _ => .fail CalErr.pyError []
    else if tag = "ET_CHG" then
      match (cmd.get? 1).bind pyInt? with
      | none => .fail CalErr.pyError []
      | some n =>
        match dictFind? (n - 1) pts with
        | none =>
          .fail (CalErr.runtimeError
            "Something went wrong during the calibration. Please try again.") []
        | some (x, y) =>
          .next pts
            ([CalEvent.clear, CalEvent.fixdot x y, CalEvent.present] ++
              if sound then [CalEvent.beep1] else [])
    else if tag = "ET_FIN" then .finish
    else .next pts []

/-- Outcome of running the calibration loop over a list of received
lines: the loop broke on `ET_FIN` with the given side-effect trace, or
it is still waiting for lines when the input runs out, or an exception
escaped after the given trace. -/
inductive CalRes where
  | finished (evs : List CalEvent)
  | blocked (pts : List (Int × Int × Int)) (evs : List CalEvent)
  | fail (e : CalErr) (evs : List CalEvent)
deriving DecidableEq

/-- The `while True` loop of `libsmi.calibrate` over the lines `recv`
delivers, starting from the point dict `pts`. -/
def calibRun (sound : Bool) (pts : List (Int × Int × Int)) :
    List String → CalRes
  | [] => .blocked pts []
  | line :: rest =>
    match calibStep sound pts (pySplit line) with
    | .next pts2 evs =>
      match calibRun sound pts2 rest with
      | .finished evs2 => .finished (evs ++ evs2)
      | .blocked p evs2 => .blocked p (evs ++ evs2)
      | .fail e evs2 => .fail e (evs ++ evs2)
    | .finish => .finished []
    | .fail e evs => .fail e evs

/-! ## Session control (`libsmi.stop_recording`) -/

/-- `libsmi.stop_recording`, as a function of the streaming flag:
returns the command strings passed to `send`, in order, and the value
of the streaming flag after the call (`ET_EST` first when streaming,
then always `ET_STP`, then `self.streaming = False`). -/
def stop_recording (streaming : Bool) : List String × Bool :=
  ((if streaming then ["ET_EST"] else []) ++ ["ET_STP"], false)

/-- Claim C1: a point-change line whose parsed point number has no
stored point at index `n - 1` makes the calibration loop raise the
calibration-went-wrong runtime error, with an empty side-effect trace
from that line on: none of the display calls (clear, fixation dot,
present) happen for that event, and the remaining lines are never
consumed. -/
theorem calibrate_chg_undefined_fails :
    ∀ (sound : Bool) (pts : List (Int × Int × Int)) (line : String)
      (rest : List String) (t : String) (ts : List String) (n : Int),
      pySplit line = "ET_CHG" :: t :: ts →
      pyInt? t = some n →
      dictFind? (n - 1) pts = none →
      calibRun sound pts (line :: rest) =
        CalRes.fail (CalErr.runtimeError
          "Something went wrong during the calibration. Please try again.")
          [] := by
  intro sound pts line rest t ts n hsplit hn hfind
  simp only [calibRun, hsplit]
  simp [calibStep, hn, hfind]

theorem calibrate_chg_undefined_fails_witness :
    calibRun false [] ["ET_CHG 1"] =
      CalRes.fail (CalErr.runtimeError
        "Something went wrong during the calibration. Please try again.")
        [] :=
  calibrate_chg_undefined_fails false [] "ET_CHG 1" [] "1" [] 1
    (by decide) (by decide) rfl

/-- Claim C6: from an empty point table, the lines
`ET_PNT 3 100 200`, `ET_CHG 3`, `ET_FIN` finish the calibration loop
with the display sequence clear, fixation dot at `(100, 200)`, present
invoked exactly once (with sound, followed by the point-changed
beep). -/
theorem calibrate_pnt_chg_display_once :
    calibRun false [] ["ET_PNT 3 100 200", "ET_CHG 3", "ET_FIN"] =
      CalRes.finished
        [CalEvent.clear, CalEvent.fixdot 100 200, CalEvent.present] ∧
    calibRun true [] ["ET_PNT 3 100 200", "ET_CHG 3", "ET_FIN"] =
      CalRes.finished
        [CalEvent.clear, CalEvent.fixdot 100 200, CalEvent.present,
          CalEvent.beep1] := by
  constructor <;> decide

/-- Claim C5: with the streaming flag set, `stop_recording` sends
`ET_EST` strictly before `ET_STP`, each exactly once; with the flag
clear it sends only `ET_STP`; in both cases the flag is false
afterwards. -/
theorem stop_recording_order :
    stop_recording true = (["ET_EST", "ET_STP"], false) ∧
    (stop_recording true).1.count "ET_EST" = 1 ∧
    (stop_recording true).1.count "ET_STP" = 1 ∧
    stop_recording false = (["ET_STP"], false) ∧
    (stop_recording false).1.count "ET_EST" = 0 ∧
    (stop_recording false).2 = false ∧ (stop_recording true).2 = false := by
  decide

end LibSMI
